import Mathlib

/-!
Verification of the two command-line job-scraper scripts of this
repository (the static Indeed scraper in test1.py and the dynamic,
browser-driven Google Careers scraper in test2.py) against their
natural-language specification.

The page structure each script sees is embedded as explicit data: which
elements are present and what text or attributes they carry.  The
scripts' control flow is translated function by function; console
prints, HTTP fetch attempts, CSV file writes and uncaught exceptions are
recorded in an event trace, so that statements about diagnostics, output
files and clean exits can be made about the trace.
-/

namespace JobScraper

/-- A run-time event of one script invocation: an HTTP fetch attempt, a
console print, a CSV file write, or an uncaught exception escaping the
script. -/
inductive Event
  | fetchAttempt
  | printed (s : String)
  | wroteFile (name : String)
  | crashed (err : String)
  deriving DecidableEq, Repr

/-- True exactly on a fetch-attempt event. -/
def isFetchEv : Event → Bool
  | Event.fetchAttempt => true
  | _ => false

/-- True exactly on a file-write event. -/
def isWriteEv : Event → Bool
  | Event.wroteFile _ => true
  | _ => false

/-- True exactly on an uncaught-exception event. -/
def isCrashEv : Event → Bool
  | Event.crashed _ => true
  | _ => false

/-- Number of fetch attempts recorded in a trace. -/
def countFetches (tr : List Event) : Nat := tr.countP isFetchEv

/-- Whether a trace contains a file write. -/
def hasWrite (tr : List Event) : Bool := tr.any isWriteEv

/-- Whether a trace contains an uncaught exception. -/
def hasCrash (tr : List Event) : Bool := tr.any isCrashEv

/-! ### Python string helpers used by both scripts -/

/-- Python str.replace of one character by one character, as used with
replace of a space by another separator in both scripts. -/
def replaceChar (a b : Char) (s : String) : String :=
  String.mk (s.data.map (fun c => if c = a then b else c))

/-- Python str.lower, modelled on the ASCII range (the inputs of the
scripts are command-line job titles and locations). -/
def pyLower (s : String) : String :=
  String.mk (s.data.map Char.toLower)

/-- The query string of the static variant: spaces joined by plus signs,
as in the url construction of get_jobs in test1.py. -/
def pySpaceToPlus (s : String) : String := replaceChar ' ' '+' s

/-- Space-to-hyphen normalisation used by both save_to_csv functions. -/
def pySpaceToHyphen (s : String) : String := replaceChar ' ' '-' s

/-- Python replace of a space by the three characters of percent-20, as
in the query construction of scrape_google_jobs in test2.py. -/
def pyPct20 (s : String) : String :=
  String.mk (s.data.flatMap (fun c => if c = ' ' then ['%', '2', '0'] else [c]))

/-- The search url built by get_jobs in test1.py. -/
def indeedSearchURL (job loc : String) : String :=
  "https://www.indeed.com/jobs?q=" ++ pySpaceToPlus job ++ "&l=" ++ pySpaceToPlus loc

/-- The search url built by scrape_google_jobs in test2.py. -/
def googleSearchURL (job : String) : String :=
  "https://www.google.com/about/careers/applications/jobs/results/?q=" ++ pyPct20 job

/-! ### Static variant (test1.py): page model -/

/-- One item marker of the static page: an anchor of class tapItem found
inside the listing container.  Each optional field holds the text of the
corresponding sub-element when that sub-element is present; href holds
the value of the href attribute of the anchor when that attribute is
present. -/
structure Card where
  titleSpan : Option String
  companySpan : Option String
  locationDiv : Option String
  href : Option String
  deriving DecidableEq, Repr

/-- The parsed static page: the listing container (the div with id
mosaic-provider-jobcards) is either absent, or present and holding the
list of item markers found by find_all. -/
structure StaticPage where
  container : Option (List Card)
  deriving DecidableEq, Repr

/-- Outcome of the single requests.get call of get_jobs: either the
parsed page, or a raised RequestException (network error or the non-2xx
status surfaced by raise_for_status). -/
inductive FetchResult
  | ok (page : StaticPage)
  | fetchError (msg : String)
  deriving DecidableEq, Repr

/-- An extracted record of the static variant, mirroring the dict
appended to jobs_data in get_jobs of test1.py. -/
structure Record where
  jobTitle : String
  company : String
  location : String
  link : String
  deriving DecidableEq, Repr

/-- The sentinel value substituted for an unreadable field. -/
def sentinel : String := "N/A"

/-- Python str.strip: leading and trailing whitespace removed. -/
def pyStrip (s : String) : String :=
  String.mk
    (((s.data.dropWhile Char.isWhitespace).reverse.dropWhile Char.isWhitespace).reverse)

/-- The conditional expression pattern of get_jobs in test1.py: the
stripped text of the element when it is present, the sentinel value
otherwise. -/
def textOrNA (o : Option String) : String :=
  match o with
  | some t => pyStrip t
  | none => sentinel

/-- The base prepended to the href of each card by get_jobs. -/
def indeedBase : String := "https://www.indeed.com"

/-- Extraction of one card in get_jobs of test1.py: title, company and
location fall back to the sentinel independently; reading the href of a
card without that attribute raises an uncaught KeyError. -/
def extractCard (c : Card) : Except String Record :=
  match c.href with
  | none => Except.error ("KeyError: href")
  | some h =>
      Except.ok
        { jobTitle := textOrNA c.titleSpan
          company := textOrNA c.companySpan
          location := textOrNA c.locationDiv
          link := indeedBase ++ h }

/-- Extraction of the whole card list, in order; the first raised
KeyError aborts everything after it. -/
def extractCards : List Card → Except String (List Record)
  | [] => Except.ok []
  | c :: cs =>
      match extractCard c with
      | Except.error e => Except.error e
      | Except.ok r =>
          match extractCards cs with
          | Except.error e => Except.error e
          | Except.ok rs => Except.ok (r :: rs)

/-- The opening print of get_jobs. -/
def staticHdr (job loc : String) : Event :=
  Event.printed ("Scraping jobs for \x27" ++ job ++ "\x27 in \x27" ++ loc ++ "\x27...")

/-- Diagnostic printed by get_jobs when the listing container is absent. -/
def staticStructuralDiag : String :=
  "Could not find the main job cards container. The website structure may have changed."

/-- Diagnostic printed by get_jobs when the container holds no cards. -/
def staticNoCardsDiag : String :=
  "No job cards found. Try a different search term or check the class names."

/-- get_jobs of test1.py: the returned value (None on every handled
failure, the record list on success, a raised exception when a card has
no href) paired with the event trace of the call. -/
def get_jobs (fetch : FetchResult) (job loc : String) :
    Except String (Option (List Record)) × List Event :=
  match fetch with
  | FetchResult.fetchError e =>
      (Except.ok none,
        [staticHdr job loc, Event.fetchAttempt,
          Event.printed ("Error fetching the URL: " ++ e)])
  | FetchResult.ok page =>
      match page.container with
      | none =>
          (Except.ok none,
            [staticHdr job loc, Event.fetchAttempt, Event.printed staticStructuralDiag])
      | some cards =>
          if cards.isEmpty then
            (Except.ok none,
              [staticHdr job loc, Event.fetchAttempt, Event.printed staticNoCardsDiag])
          else
            match extractCards cards with
            | Except.error e =>
                (Except.error e, [staticHdr job loc, Event.fetchAttempt])
            | Except.ok rs =>
                (Except.ok (some rs),
                  [staticHdr job loc, Event.fetchAttempt,
                    Event.printed ("Found " ++ toString rs.length ++ " jobs.")])

/-- The filename built by save_to_csv of test1.py: replace spaces by
hyphens, then lowercase, for both the job title and the location. -/
def staticFilename (job loc date : String) : String :=
  pyLower (pySpaceToHyphen job) ++ "_" ++ pyLower (pySpaceToHyphen loc)
    ++ "_jobs_" ++ date ++ ".csv"

/-- save_to_csv of test1.py as an event trace: empty data is reported
and skipped, otherwise the CSV file is written and the success line
printed. -/
def save_to_csv_static (rs : List Record) (job loc date : String) : List Event :=
  if rs.isEmpty then
    [Event.printed ("No data to save.")]
  else
    [Event.wroteFile (staticFilename job loc date),
      Event.printed ("Successfully saved data to " ++ staticFilename job loc date)]

/-- The main block of test1.py: run get_jobs once and save only when the
returned value is truthy; a raised KeyError escapes uncaught. -/
def staticMain (fetch : FetchResult) (job loc date : String) : List Event :=
  match get_jobs fetch job loc with
  | (Except.error e, tr) => tr ++ [Event.crashed e]
  | (Except.ok none, tr) => tr
  | (Except.ok (some rs), tr) =>
      if rs.isEmpty then tr else tr ++ save_to_csv_static rs job loc date

/-! ### Dynamic variant (test2.py): page model -/

/-- The anchor found inside one card by find_element on the tag name a,
together with the value the driver reports for get_attribute of href
(which is absent when the browser reports no value). -/
structure AnchorEl where
  hrefValue : Option String
  deriving DecidableEq, Repr

/-- One item marker of the dynamic page: a div of class sMn82b inside
the listing container.  title is the text of the element of class
hprKdb when that element is present; locations are the texts of the
elements of class r0wTof (find_elements, possibly empty); anchor is the
first anchor tag when one is present. -/
structure GCard where
  title : Option String
  locations : List String
  anchor : Option AnchorEl
  deriving DecidableEq, Repr

/-- The next-page control, when present: an anchor with the aria-label
of the next page, with its displayed and enabled states. -/
structure NextBtn where
  displayed : Bool
  enabled : Bool
  deriving DecidableEq, Repr

/-- One rendered page of the dynamic site: the listing container (class
sp2RC) either never becomes present within the bounded wait (none,
surfacing as a TimeoutException) or holds its list of cards; the
next-page control is either absent (NoSuchElementException) or present
with its interactability state. -/
structure GPage where
  container : Option (List GCard)
  nextButton : Option NextBtn
  deriving DecidableEq, Repr

/-- An extracted record of the dynamic variant, mirroring the dict
appended to jobs_data in scrape_google_jobs; link holds whatever
get_attribute reported. -/
structure DRecord where
  jobTitle : String
  company : String
  location : String
  link : Option String
  deriving DecidableEq, Repr

/-- Extraction of one card in scrape_google_jobs of test2.py: the body
of the per-card try block.  A missing title element or a missing anchor
raises NoSuchElementException, which the except clause turns into
skipping the whole card (none); otherwise the record is built with the
constant company Google and the comma-joined location texts. -/
def extractGCard (c : GCard) : Option DRecord :=
  match c.title with
  | none => none
  | some t =>
      match c.anchor with
      | none => none
      | some a =>
          some
            { jobTitle := t
              company := "Google"
              location := String.intercalate (", ") c.locations
              link := a.hrefValue }

/-- The records kept from one card list: cards whose try block raised
are skipped, the rest appended in order. -/
def extractGJobs (cs : List GCard) : List DRecord := cs.filterMap extractGCard

/-- Diagnostic printed on a TimeoutException of the bounded wait. -/
def dynTimeoutDiag : String := "Timed out waiting for page content to load. Exiting."

/-- Diagnostic printed when the container is present but holds no cards. -/
def dynNoCardsDiag : String :=
  "No job cards found on this page. The website structure might have changed."

/-- Print announcing one pagination click. -/
def navMsg : String := "Navigating to the next page..."

/-- Print on a next button that is present but not interactable. -/
def notInteractableMsg : String := "Next button is not interactable. Reached the last page."

/-- Print when no next button is found. -/
def noNextMsg : String := "No \x27Next\x27 button found. Reached the last page."

/-- Print for one skipped card. -/
def skipMsg : String := "Skipping a card with missing information."

/-- The banner printed at the start of each loop iteration. -/
def pageHeader (idx : Nat) : Event :=
  Event.printed ("\n--- Scraping Page " ++ toString (idx + 1) ++ " ---")

/-- The prints of the extraction pass over one card list: the found
count followed by one skip line per card whose try block raised. -/
def pageEvs (idx : Nat) (cards : List GCard) : List Event :=
  [pageHeader idx,
    Event.printed ("Found " ++ toString cards.length ++ " jobs on this page.")]
    ++ cards.filterMap
      (fun c => if (extractGCard c).isSome then none else some (Event.printed skipMsg))

/-- Result of the pagination loop of scrape_google_jobs: the records
accumulated in jobs_data, the event trace, and the number of loop
iterations (fetch/extract cycles) that ran. -/
structure LoopResult where
  records : List DRecord
  events : List Event
  cycles : Nat
  deriving DecidableEq, Repr

/-- The pagination loop of scrape_google_jobs in test2.py.  The site is
the page shown after a given number of next-clicks; idx is the current
page index and the fuel is the number of loop iterations left of the
range over pages_to_scrape.  Each iteration: a wait timeout (absent
container) breaks with its diagnostic; an empty card list breaks with
its diagnostic; otherwise the page is extracted and the next button is
looked for — absent breaks, not interactable breaks, otherwise the
click advances to the next page. -/
def scrapeLoop (site : Nat → GPage) : Nat → Nat → LoopResult
  | _, 0 => ⟨[], [], 0⟩
  | idx, fuel + 1 =>
      match (site idx).container with
      | none => ⟨[], [pageHeader idx, Event.printed dynTimeoutDiag], 1⟩
      | some cards =>
          if cards.isEmpty then
            ⟨[], [pageHeader idx, Event.printed dynNoCardsDiag], 1⟩
          else
            match (site idx).nextButton with
            | none =>
                ⟨extractGJobs cards, pageEvs idx cards ++ [Event.printed noNextMsg], 1⟩
            | some b =>
                if b.displayed && b.enabled then
                  let rest := scrapeLoop site (idx + 1) fuel
                  ⟨extractGJobs cards ++ rest.records,
                    pageEvs idx cards ++ [Event.printed navMsg] ++ rest.events,
                    rest.cycles + 1⟩
                else
                  ⟨extractGJobs cards,
                    pageEvs idx cards ++ [Event.printed notInteractableMsg], 1⟩

/-- scrape_google_jobs of test2.py: navigate to the search url, run the
pagination loop over the requested number of pages, and return the
accumulated records together with the event trace. -/
def scrape_google_jobs (site : Nat → GPage) (job : String) (pages : Nat) :
    List DRecord × List Event :=
  let r := scrapeLoop site 0 pages
  (r.records, Event.printed ("Navigating to: " ++ googleSearchURL job) :: r.events)

/-- The number of fetch/extract cycles a run with the given site and
page limit performs. -/
def scrapeCycles (site : Nat → GPage) (pages : Nat) : Nat :=
  (scrapeLoop site 0 pages).cycles

/-- The records of one already-rendered page, as kept by the loop body. -/
def pageRecords (p : GPage) : List DRecord :=
  match p.container with
  | some cards => extractGJobs cards
  | none => []

/-- Concatenation of the records of the pages idx, idx+1, ..., idx+k-1,
in page order. -/
def pagesConcat (site : Nat → GPage) : Nat → Nat → List DRecord
  | _, 0 => []
  | idx, k + 1 => pageRecords (site idx) ++ pagesConcat site (idx + 1) k

/-- Whether the loop body at this page takes the advancing branch:
container present with at least one card, next button present,
displayed and enabled. -/
def advancesB (p : GPage) : Bool :=
  (match p.container with
    | some cards => !cards.isEmpty
    | none => false)
  && (match p.nextButton with
    | some b => b.displayed && b.enabled
    | none => false)

/-- Whether the loop body at this page extracts the page and then stops
because no next button is found. -/
def stopNoNext (p : GPage) : Bool :=
  (match p.container with
    | some cards => !cards.isEmpty
    | none => false)
  && p.nextButton.isNone

/-- The filename built by save_to_csv of test2.py: spaces of the job
title become hyphens, with the letter case preserved. -/
def dynamicFilename (job dt : String) : String :=
  "google-jobs_" ++ pySpaceToHyphen job ++ "_" ++ dt ++ ".csv"

/-- save_to_csv of test2.py as an event trace. -/
def save_to_csv_dyn (rs : List DRecord) (job dt : String) : List Event :=
  if rs.isEmpty then
    [Event.printed ("No data was scraped. CSV file will not be created.")]
  else
    [Event.wroteFile (dynamicFilename job dt),
      Event.printed ("\n✅ Success! Scraped " ++ toString rs.length
        ++ " jobs and saved to \x27" ++ dynamicFilename job dt ++ "\x27")]

/-- The body of the main try block of test2.py after the driver is set
up, on a run where no unhandled exception occurs: scrape, then save. -/
def dynamicRun (site : Nat → GPage) (job : String) (pages : Nat) (dt : String) :
    List Event :=
  let r := scrape_google_jobs site job pages
  r.2 ++ save_to_csv_dyn r.1 job dt

/-- Outcome of one step of the main block of test2.py: it either
completes or raises an exception caught by the outer except clause. -/
inductive StepOutcome
  | ok
  | raises (e : String)
  deriving DecidableEq, Repr

/-- Observable summary of one whole run of test2.py: whether a browser
session was acquired, whether it was released (driver.quit ran), and
the trace. -/
structure Test2Run where
  acquired : Bool
  released : Bool
  trace : List Event
  deriving DecidableEq, Repr

/-- The main block of test2.py: driver starts as None; setup_driver
either returns a session (acquired) or raises before acquiring one; the
body (scrape then save) either completes with its trace or raises; the
except clause prints the error; the finally clause quits the driver
exactly when one was assigned. -/
def test2Main (setup : StepOutcome) (body : StepOutcome) (bodyTrace : List Event) :
    Test2Run :=
  match setup with
  | StepOutcome.raises e =>
      { acquired := false
        released := false
        trace := [Event.printed ("Setting up the Chrome WebDriver..."),
          Event.printed ("\nAn unexpected error occurred: " ++ e)] }
  | StepOutcome.ok =>
      match body with
      | StepOutcome.raises e =>
          { acquired := true
            released := true
            trace := [Event.printed ("Setting up the Chrome WebDriver..."),
              Event.printed ("\nAn unexpected error occurred: " ++ e),
              Event.printed ("Closing the WebDriver.")] }
      | StepOutcome.ok =>
          { acquired := true
            released := true
            trace := Event.printed ("Setting up the Chrome WebDriver...")
              :: bodyTrace ++ [Event.printed ("Closing the WebDriver.")] }

/-! ### Spec-side definitions, for the refinement claims

These two definitions follow the words of the specification, not the
source, so that the source-derived definitions above can be compared
with them. -/

/-- Spec-side slug of the glossary: a lowercase, separator-normalised
form of a string used for filenames (spaces become hyphens and letters
are lowercased). -/
def specSlug (s : String) : String :=
  String.mk (s.data.map (fun c => if c = ' ' then '-' else Char.toLower c))

/-- Characters admissible in a url (unreserved and reserved characters
of the generic url syntax); a space or a control character is not among
them. -/
def isUrlChar (c : Char) : Bool :=
  c.isAlphanum
    || (c ∈ ['-', '.', '_', '~', ':', '/', '?', '#', '[', ']', '@', '!', '$',
        '&', '(', ')', '*', '+', ',', ';', '=', '%'])

/-- Whether the first list is a prefix of the second, by direct
character comparison. -/
def hasPrefixChars : List Char → List Char → Bool
  | [], _ => true
  | _ :: _, [] => false
  | p :: ps, c :: cs => p == c && hasPrefixChars ps cs

/-- Spec-side check that a string is a syntactically valid absolute
url: an http or https scheme followed by a nonempty remainder, with
every character admissible in a url. -/
def specValidAbsoluteURL (s : String) : Bool :=
  ((hasPrefixChars ("http://".data) s.data && 7 < s.data.length)
      || (hasPrefixChars ("https://".data) s.data && 8 < s.data.length))
    && s.data.all isUrlChar

/-! ### Concrete sample data used by witnesses and counterexamples -/

/-- A fully populated static card with a relative href. -/
def cardFull : Card :=
  { titleSpan := some ("Python Developer")
    companySpan := some ("Acme")
    locationDiv := some ("Remote")
    href := some ("/rc/clk?jk=123") }

/-- A static card whose title span is missing and whose href is a lone
space. -/
def cardBadHref : Card :=
  { titleSpan := none
    companySpan := none
    locationDiv := none
    href := some (" ") }

/-- A static card with no href attribute on its anchor. -/
def cardNoHref : Card :=
  { titleSpan := some ("Analyst")
    companySpan := none
    locationDiv := none
    href := none }

/-- The static page whose listing container is absent. -/
def pageNoContainer : StaticPage := { container := none }

/-- The static page whose container is present but holds no cards. -/
def pageEmptyContainer : StaticPage := { container := some [] }

/-- A fully populated dynamic card. -/
def gcardFull : GCard :=
  { title := some ("Engineer")
    locations := ["NYC"]
    anchor := some { hrefValue := some ("https://careers.example/1") } }

/-- A dynamic card whose title element is missing. -/
def gcardNoTitle : GCard :=
  { title := none
    locations := ["NYC"]
    anchor := some { hrefValue := some ("https://careers.example/2") } }

/-- The record extracted from the fully populated dynamic card. -/
def gRecordFull : DRecord :=
  { jobTitle := "Engineer"
    company := "Google"
    location := "NYC"
    link := some ("https://careers.example/1") }

/-- A dynamic page that advances: one card and an interactable next
button. -/
def gpageAdv : GPage :=
  { container := some [gcardFull]
    nextButton := some { displayed := true, enabled := true } }

/-- A dynamic page with one card and no next button. -/
def gpageNoNext : GPage :=
  { container := some [gcardFull]
    nextButton := none }

/-- A dynamic page whose container never appears within the wait. -/
def gpageTimeout : GPage :=
  { container := none
    nextButton := none }

/-- A site whose first page advances and whose second page has no next
button. -/
def siteStops : Nat → GPage := fun n => if n = 0 then gpageAdv else gpageNoNext

/-- A site whose first page advances and whose second page times out. -/
def siteTimesOut : Nat → GPage := fun n => if n = 0 then gpageAdv else gpageTimeout

/-- A site every page of which times out. -/
def siteAllTimeout : Nat → GPage := fun _ => gpageTimeout

/-- A site every page of which has a present container with zero cards. -/
def siteEmptyCards : Nat → GPage :=
  fun _ => { container := some [], nextButton := none }

/-- The record extracted from the fully populated static card. -/
def recordFull : Record :=
  { jobTitle := "Python Developer"
    company := "Acme"
    location := "Remote"
    link := "https://www.indeed.com/rc/clk?jk=123" }

/-- Correspondence between one optional sub-field of a card and the
matching field of its extracted record: the sentinel exactly when the
sub-field is missing, its stripped text otherwise. -/
def fieldMatches (src : Option String) (out : String) : Prop :=
  (src = none → out = sentinel) ∧ ∀ t, src = some t → out = pyStrip t

/-- Correspondence between a static card and its extracted record:
title, company and location independently sentinel-filled, and the link
equal to the base joined with the href. -/
def staticFieldsOK (c : Card) (r : Record) : Prop :=
  fieldMatches c.titleSpan r.jobTitle
    ∧ fieldMatches c.companySpan r.company
    ∧ fieldMatches c.locationDiv r.location
    ∧ ∀ h, c.href = some h → r.link = indeedBase ++ h

/-! ### Helper lemmas -/

theorem extractCards_ok_length :
    ∀ cards rs, extractCards cards = Except.ok rs → rs.length = cards.length := by
  intro cards
  induction cards with
  | nil =>
      intro rs h
      simp only [extractCards] at h
      cases h
      rfl
  | cons c cs ih =>
      intro rs h
      simp only [extractCards] at h
      cases hc : extractCard c with
      | error e => rw [hc] at h; cases h
      | ok r =>
          rw [hc] at h
          cases hcs : extractCards cs with
          | error e => rw [hcs] at h; cases h
          | ok rs0 =>
              rw [hcs] at h
              cases h
              simp [ih rs0 hcs]

theorem extractGCard_isSome (c : GCard) :
    (extractGCard c).isSome = (c.title.isSome && c.anchor.isSome) := by
  cases ht : c.title <;> cases ha : c.anchor <;> simp [extractGCard, ht, ha]

theorem fieldMatches_textOrNA (o : Option String) : fieldMatches o (textOrNA o) := by
  cases o <;> simp [fieldMatches, textOrNA]

theorem slug_eq (s : String) : pyLower (pySpaceToHyphen s) = specSlug s := by
  have hfun : ∀ c : Char,
      Char.toLower (if c = ' ' then '-' else c) = (if c = ' ' then '-' else Char.toLower c) := by
    intro c
    by_cases h : c = ' '
    · simp [h]
    · simp [h]
  show String.mk ((s.data.map (fun c => if c = ' ' then '-' else c)).map Char.toLower)
      = String.mk (s.data.map (fun c => if c = ' ' then '-' else Char.toLower c))
  rw [List.map_map]
  exact congrArg String.mk (List.map_congr_left (fun c _ => hfun c))

/-! ### Claims -/

/-- Claim C9: in the dynamic variant, every extracted record has its
Company field equal to the constant string Google, regardless of page
content; it never takes the sentinel value. -/
theorem claim9 : ∀ cs (r : DRecord), r ∈ extractGJobs cs →
    r.company = "Google" ∧ r.company ≠ sentinel := by
  intro cs r hr
  rw [extractGJobs, List.mem_filterMap] at hr
  obtain ⟨c, -, hc⟩ := hr
  have hcomp : r.company = "Google" := by
    cases ht : c.title with
    | none => simp [extractGCard, ht] at hc
    | some t =>
        cases ha : c.anchor with
        | none => simp [extractGCard, ht, ha] at hc
        | some a =>
            simp [extractGCard, ht, ha] at hc
            rw [← hc]
  refine ⟨hcomp, ?_⟩
  rw [hcomp]
  decide

/-- Witness for claim C9 at a concrete card list. -/
theorem claim9_witness :
    gRecordFull ∈ extractGJobs [gcardFull]
      ∧ (gRecordFull.company = "Google" ∧ gRecordFull.company ≠ sentinel) :=
  ⟨by decide, claim9 [gcardFull] gRecordFull (by decide)⟩

/-- Claim C3, counterexample: the dynamic-variant filename does not
lowercase the job title, so it differs from the slug-built name the
claim states. -/
theorem claim3_cex :
    dynamicFilename ("A") ("D") ≠ "google-jobs_" ++ specSlug ("A") ++ "_" ++ "D" ++ ".csv" := by
  decide

/-- Claim C3, amended: both filenames are deterministic functions of
the query inputs and the date or datetime; the static filename is built
from the lowercase separator-normalised slug of job and location, while
the dynamic filename only replaces spaces by hyphens in the job title,
preserving letter case. -/
theorem claim3_amended : ∀ job loc d dt,
    staticFilename job loc d = specSlug job ++ "_" ++ specSlug loc ++ "_jobs_" ++ d ++ ".csv"
      ∧ dynamicFilename job dt = "google-jobs_" ++ pySpaceToHyphen job ++ "_" ++ dt ++ ".csv" := by
  intro job loc d dt
  constructor
  · rw [staticFilename, slug_eq, slug_eq]
  · rfl

/-- Claim C8: a static-variant run whose fetch fails makes exactly one
fetch attempt, prints the fetch diagnostic, writes no file, and exits
cleanly with no uncaught exception. -/
theorem claim8 : ∀ e job loc d,
    countFetches (staticMain (FetchResult.fetchError e) job loc d) = 1
      ∧ Event.printed ("Error fetching the URL: " ++ e)
          ∈ staticMain (FetchResult.fetchError e) job loc d
      ∧ hasWrite (staticMain (FetchResult.fetchError e) job loc d) = false
      ∧ hasCrash (staticMain (FetchResult.fetchError e) job loc d) = false := by
  intro e job loc d
  refine ⟨?_, ?_, ?_, ?_⟩ <;>
    simp [staticMain, get_jobs, countFetches, hasWrite, hasCrash, isFetchEv,
      isWriteEv, isCrashEv, staticHdr, List.countP_cons]

/-- Claim C10: the static extraction returns the same value (None, not
an empty list) on fetch error, on a missing container, and on a
container with zero markers; it never returns an empty list; and in
each of the three cases the main block writes no file. -/
theorem claim10 :
    (∀ e job loc, (get_jobs (FetchResult.fetchError e) job loc).1 = Except.ok none)
      ∧ (∀ page job loc, page.container = none →
          (get_jobs (FetchResult.ok page) job loc).1 = Except.ok none)
      ∧ (∀ page job loc, page.container = some [] →
          (get_jobs (FetchResult.ok page) job loc).1 = Except.ok none)
      ∧ (∀ fetch job loc rs,
          (get_jobs fetch job loc).1 = Except.ok (some rs) → rs ≠ [])
      ∧ (∀ e job loc d, hasWrite (staticMain (FetchResult.fetchError e) job loc d) = false)
      ∧ (∀ page job loc d, page.container = none →
          hasWrite (staticMain (FetchResult.ok page) job loc d) = false)
      ∧ (∀ page job loc d, page.container = some [] →
          hasWrite (staticMain (FetchResult.ok page) job loc d) = false) := by
  refine ⟨?_, ?_, ?_, ?_, ?_, ?_, ?_⟩
  · intro e job loc; rfl
  · intro page job loc h; simp [get_jobs, h]
  · intro page job loc h; simp [get_jobs, h]
  · intro fetch job loc rs h
    cases fetch with
    | fetchError e => simp [get_jobs] at h
    | ok page =>
        cases hc : page.container with
        | none => simp [get_jobs, hc] at h
        | some cards =>
            by_cases he : cards.isEmpty
            · simp [get_jobs, hc, he] at h
            · cases hx : extractCards cards with
              | error e => simp [get_jobs, hc, he, hx] at h
              | ok rs0 =>
                  simp [get_jobs, hc, he, hx] at h
                  subst h
                  have hlen := extractCards_ok_length cards rs0 hx
                  intro hnil
                  rw [hnil] at hlen
                  simp at hlen
                  have hce : cards = [] := List.length_eq_zero.mp hlen.symm
                  subst hce
                  exact he rfl
  · intro e job loc d
    simp [staticMain, get_jobs, hasWrite, isWriteEv, staticHdr]
  · intro page job loc d h
    simp [staticMain, get_jobs, h, hasWrite, isWriteEv, staticHdr]
  · intro page job loc d h
    simp [staticMain, get_jobs, h, hasWrite, isWriteEv, staticHdr]

/-- Witness for claim C10 at concrete pages. -/
theorem claim10_witness :
    (pageNoContainer.container = none
        ∧ (get_jobs (FetchResult.ok pageNoContainer) ("j") ("l")).1 = Except.ok none)
      ∧ (pageEmptyContainer.container = some []
        ∧ (get_jobs (FetchResult.ok pageEmptyContainer) ("j") ("l")).1 = Except.ok none)
      ∧ ((get_jobs (FetchResult.ok { container := some [cardFull] }) ("j") ("l")).1
            = Except.ok (some [recordFull])
        ∧ [recordFull] ≠ ([] : List Record))
      ∧ hasWrite (staticMain (FetchResult.ok pageNoContainer) ("j") ("l") ("d")) = false
      ∧ hasWrite (staticMain (FetchResult.ok pageEmptyContainer) ("j") ("l") ("d")) = false :=
  ⟨⟨rfl, claim10.2.1 pageNoContainer ("j") ("l") rfl⟩,
    ⟨rfl, claim10.2.2.1 pageEmptyContainer ("j") ("l") rfl⟩,
    ⟨rfl,
      claim10.2.2.2.1 (FetchResult.ok { container := some [cardFull] }) ("j") ("l")
        [recordFull] rfl⟩,
    claim10.2.2.2.2.2.1 pageNoContainer ("j") ("l") ("d") rfl,
    claim10.2.2.2.2.2.2 pageEmptyContainer ("j") ("l") ("d") rfl⟩

/-- Claim C6: on every exit path of the dynamic variant main block, an
acquired browser session is released; in particular every completed run
(normal, structural failure or timeout alike) releases it. -/
theorem claim6 :
    (∀ s b tr, (test2Main s b tr).acquired = true → (test2Main s b tr).released = true)
      ∧ (∀ site job pages dt,
          (test2Main StepOutcome.ok StepOutcome.ok (dynamicRun site job pages dt)).released
            = true) := by
  constructor
  · intro s b tr h
    cases s with
    | raises e => simp [test2Main] at h
    | ok => cases b <;> rfl
  · intro site job pages dt
    rfl

/-- Witness for claim C6 at a concrete run. -/
theorem claim6_witness :
    (test2Main StepOutcome.ok StepOutcome.ok []).acquired = true
      ∧ (test2Main StepOutcome.ok StepOutcome.ok []).released = true :=
  ⟨rfl, claim6.1 StepOutcome.ok StepOutcome.ok [] rfl⟩

/-- Claim C1, counterexample: a dynamic page with two item markers, one
of which is missing only its title sub-field, yields one record rather
than two — the whole record of the deficient marker is dropped. -/
theorem claim1_cex :
    (extractGJobs [gcardFull, gcardNoTitle]).length ≠ [gcardFull, gcardNoTitle].length := by
  decide

/-- Claim C1, amended: in the static variant, extraction yields exactly
one record per marker with title, company and location independently
sentinel-filled, provided every marker carries an href; a marker
without href instead raises an uncaught KeyError that aborts the whole
extraction.  In the dynamic variant a marker missing its title element
or its anchor is dropped entirely, so extraction yields one record per
marker that has both. -/
theorem claim1_amended :
    (∀ cards : List Card, cards.all (fun c => c.href.isSome) = true →
        ∃ rs, extractCards cards = Except.ok rs ∧ List.Forall₂ staticFieldsOK cards rs)
      ∧ (∀ cards : List Card, cards.any (fun c => c.href.isNone) = true →
          extractCards cards = Except.error ("KeyError: href"))
      ∧ (∀ cs : List GCard,
          (extractGJobs cs).length
            = (cs.filter (fun c => c.title.isSome && c.anchor.isSome)).length)
      ∧ (∀ c : GCard, c.title = none ∨ c.anchor = none → extractGCard c = none) := by
  refine ⟨?_, ?_, ?_, ?_⟩
  · intro cards
    induction cards with
    | nil => intro _; exact ⟨[], rfl, List.Forall₂.nil⟩
    | cons c cs ih =>
        intro h
        rw [List.all_cons, Bool.and_eq_true] at h
        obtain ⟨h1, h2⟩ := h
        cases hh : c.href with
        | none => rw [hh] at h1; cases h1
        | some hv =>
            obtain ⟨rs, hrs, hf⟩ := ih h2
            refine ⟨{ jobTitle := textOrNA c.titleSpan
                      company := textOrNA c.companySpan
                      location := textOrNA c.locationDiv
                      link := indeedBase ++ hv } :: rs, ?_, ?_⟩
            · simp [extractCards, extractCard, hh, hrs]
            · refine List.Forall₂.cons ⟨fieldMatches_textOrNA _, fieldMatches_textOrNA _,
                fieldMatches_textOrNA _, ?_⟩ hf
              intro h0 hh0
              rw [hh] at hh0
              cases hh0
              rfl
  · intro cards
    induction cards with
    | nil => intro h; cases h
    | cons c cs ih =>
        intro h
        cases hh : c.href with
        | none => simp [extractCards, extractCard, hh]
        | some hv =>
            have h2 : cs.any (fun c => c.href.isNone) = true := by
              rw [List.any_cons] at h
              simpa [hh] using h
            simp [extractCards, extractCard, hh, ih h2]
  · intro cs
    induction cs with
    | nil => rfl
    | cons c cs ih =>
        simp only [extractGJobs, List.filterMap_cons, List.filter_cons]
        cases hg : extractGCard c with
        | none =>
            have hs : (c.title.isSome && c.anchor.isSome) = false := by
              rw [← extractGCard_isSome, hg]
              rfl
            rw [hs]
            simpa [extractGJobs] using ih
        | some r =>
            have hs : (c.title.isSome && c.anchor.isSome) = true := by
              rw [← extractGCard_isSome, hg]
              rfl
            rw [hs]
            simpa [extractGJobs] using ih
  · intro c h
    cases h with
    | inl ht => simp [extractGCard, ht]
    | inr ha => cases ht : c.title <;> simp [extractGCard, ht, ha]

/-- Witness for claim C1 (amended) at concrete card lists. -/
theorem claim1_witness :
    ([cardFull].all (fun c => c.href.isSome) = true)
      ∧ (∃ rs, extractCards [cardFull] = Except.ok rs
          ∧ List.Forall₂ staticFieldsOK [cardFull] rs)
      ∧ ([cardNoHref].any (fun c => c.href.isNone) = true)
      ∧ (extractCards [cardNoHref] = Except.error ("KeyError: href"))
      ∧ (gcardNoTitle.title = none ∨ gcardNoTitle.anchor = none)
      ∧ (extractGCard gcardNoTitle = none) :=
  ⟨by decide, claim1_amended.1 [cardFull] (by decide), by decide,
    claim1_amended.2.1 [cardNoHref] (by decide), Or.inl rfl,
    claim1_amended.2.2.2 gcardNoTitle (Or.inl rfl)⟩

/-! ### Url lemmas for claim C5 -/

theorem stringDataAppend (a b : String) : (a ++ b).data = a.data ++ b.data := rfl

theorem hasPrefixChars_append (p : List Char) :
    ∀ l₁ l₂, hasPrefixChars p l₁ = true → hasPrefixChars p (l₁ ++ l₂) = true := by
  induction p with
  | nil => intro l₁ l₂ _; rfl
  | cons a ps ih =>
      intro l₁ l₂ h
      cases l₁ with
      | nil => cases h
      | cons b bs =>
          rw [List.cons_append]
          simp only [hasPrefixChars, Bool.and_eq_true] at h ⊢
          exact ⟨h.1, ih bs l₂ h.2⟩

/-- Claim C5, counterexample: a static card whose href is a lone space
is extracted (not dropped and not sentinel-filled), and its link — the
base concatenated with that href — is not a syntactically valid
absolute url, nor the sentinel. -/
theorem claim5_cex :
    ((extractCard cardBadHref).toOption.map
        (fun r => (r.link == sentinel) || specValidAbsoluteURL r.link)) = some false := by
  decide

/-- Claim C5, amended: the static link is the fixed absolute base
concatenated with the href of the card, never the sentinel, and a
syntactically valid absolute url whenever the href consists of
characters admissible in a url; the dynamic link is exactly the value
the browser reported for the href attribute of the anchor, passed
through unchecked. -/
theorem claim5_amended :
    (∀ (c : Card) (h : String), c.href = some h → h.data.all isUrlChar = true →
        ∃ r, extractCard c = Except.ok r
          ∧ specValidAbsoluteURL r.link = true ∧ r.link ≠ sentinel)
      ∧ (∀ (c : GCard) (r : DRecord), extractGCard c = some r →
          ∃ a, c.anchor = some a ∧ r.link = a.hrefValue) := by
  constructor
  · intro c h hh hurl
    refine ⟨{ jobTitle := textOrNA c.titleSpan
              company := textOrNA c.companySpan
              location := textOrNA c.locationDiv
              link := indeedBase ++ h }, by simp [extractCard, hh], ?_, ?_⟩
    · have hlen : indeedBase.data.length = 22 := by decide
      have hpre : hasPrefixChars (("https://").data) ((indeedBase ++ h).data) = true := by
        rw [stringDataAppend]
        exact hasPrefixChars_append _ _ _ (by decide)
      have hall : (indeedBase ++ h).data.all isUrlChar = true := by
        rw [stringDataAppend, List.all_append]
        rw [Bool.and_eq_true]
        exact ⟨by decide, hurl⟩
      have hl : 8 < (indeedBase ++ h).data.length := by
        rw [stringDataAppend, List.length_append, hlen]
        omega
      simp only [specValidAbsoluteURL, Bool.and_eq_true, Bool.or_eq_true,
        decide_eq_true_eq]
      exact ⟨Or.inr ⟨hpre, hl⟩, hall⟩
    · intro heq
      have hd := congrArg (fun s : String => s.data.length) heq
      simp only [stringDataAppend, List.length_append] at hd
      have hlen : indeedBase.data.length = 22 := by decide
      have hna : sentinel.data.length = 3 := by decide
      rw [hlen, hna] at hd
      omega
  · intro c r hcr
    cases ht : c.title with
    | none => simp [extractGCard, ht] at hcr
    | some t =>
        cases ha : c.anchor with
        | none => simp [extractGCard, ht, ha] at hcr
        | some a =>
            simp [extractGCard, ht, ha] at hcr
            exact ⟨a, rfl, by rw [← hcr]⟩

/-- Witness for claim C5 (amended) at a concrete card. -/
theorem claim5_witness :
    (cardFull.href = some ("/rc/clk?jk=123"))
      ∧ (("/rc/clk?jk=123").data.all isUrlChar = true)
      ∧ (∃ r, extractCard cardFull = Except.ok r
          ∧ specValidAbsoluteURL r.link = true ∧ r.link ≠ sentinel) :=
  ⟨rfl, by decide, claim5_amended.1 cardFull ("/rc/clk?jk=123") rfl (by decide)⟩

/-! ### Step lemmas for the pagination loop -/

theorem scrapeLoop_timeout (site : Nat → GPage) (idx fuel : Nat)
    (hc : (site idx).container = none) :
    scrapeLoop site idx (fuel + 1)
      = ⟨[], [pageHeader idx, Event.printed dynTimeoutDiag], 1⟩ := by
  simp [scrapeLoop, hc]

theorem scrapeLoop_nocards (site : Nat → GPage) (idx fuel : Nat) (cards : List GCard)
    (hc : (site idx).container = some cards) (he : cards.isEmpty = true) :
    scrapeLoop site idx (fuel + 1)
      = ⟨[], [pageHeader idx, Event.printed dynNoCardsDiag], 1⟩ := by
  simp [scrapeLoop, hc, he]

theorem scrapeLoop_nonext (site : Nat → GPage) (idx fuel : Nat) (cards : List GCard)
    (hc : (site idx).container = some cards) (he : cards.isEmpty = false)
    (hb : (site idx).nextButton = none) :
    scrapeLoop site idx (fuel + 1)
      = ⟨extractGJobs cards, pageEvs idx cards ++ [Event.printed noNextMsg], 1⟩ := by
  simp [scrapeLoop, hc, he, hb]

theorem scrapeLoop_notint (site : Nat → GPage) (idx fuel : Nat) (cards : List GCard)
    (b : NextBtn) (hc : (site idx).container = some cards) (he : cards.isEmpty = false)
    (hb : (site idx).nextButton = some b) (hd : (b.displayed && b.enabled) = false) :
    scrapeLoop site idx (fuel + 1)
      = ⟨extractGJobs cards, pageEvs idx cards ++ [Event.printed notInteractableMsg], 1⟩ := by
  simp [scrapeLoop, hc, he, hb, hd]

theorem scrapeLoop_adv (site : Nat → GPage) (idx fuel : Nat) (cards : List GCard)
    (b : NextBtn) (hc : (site idx).container = some cards) (he : cards.isEmpty = false)
    (hb : (site idx).nextButton = some b) (hd : (b.displayed && b.enabled) = true) :
    scrapeLoop site idx (fuel + 1)
      = ⟨extractGJobs cards ++ (scrapeLoop site (idx + 1) fuel).records,
          pageEvs idx cards ++ [Event.printed navMsg] ++ (scrapeLoop site (idx + 1) fuel).events,
          (scrapeLoop site (idx + 1) fuel).cycles + 1⟩ := by
  simp [scrapeLoop, hc, he, hb, hd]

theorem advancesB_dest (p : GPage) (h : advancesB p = true) :
    ∃ cards, p.container = some cards ∧ cards.isEmpty = false
      ∧ ∃ b, p.nextButton = some b ∧ (b.displayed && b.enabled) = true := by
  cases hc : p.container with
  | none => simp [advancesB, hc] at h
  | some cards =>
      cases hb : p.nextButton with
      | none => simp [advancesB, hc, hb] at h
      | some b =>
          simp only [advancesB, hc, hb, Bool.and_eq_true, Bool.not_eq_true'] at h
          exact ⟨cards, rfl, h.1, b, rfl, by rw [Bool.and_eq_true]; exact h.2⟩

theorem stopNoNext_dest (p : GPage) (h : stopNoNext p = true) :
    ∃ cards, p.container = some cards ∧ cards.isEmpty = false ∧ p.nextButton = none := by
  cases hc : p.container with
  | none => simp [stopNoNext, hc] at h
  | some cards =>
      simp only [stopNoNext, hc, Bool.and_eq_true, Bool.not_eq_true',
        Option.isNone_iff_eq_none] at h
      exact ⟨cards, rfl, h.1, h.2⟩

theorem scrapeLoop_cycles_le (site : Nat → GPage) :
    ∀ fuel idx, (scrapeLoop site idx fuel).cycles ≤ fuel := by
  intro fuel
  induction fuel with
  | zero => intro idx; exact Nat.le_refl 0
  | succ f ih =>
      intro idx
      cases hc : (site idx).container with
      | none =>
          rw [scrapeLoop_timeout site idx f hc]
          show (1 : Nat) ≤ f + 1
          omega
      | some cards =>
          by_cases he : cards.isEmpty = true
          · rw [scrapeLoop_nocards site idx f cards hc he]
            show (1 : Nat) ≤ f + 1
            omega
          · have he' : cards.isEmpty = false := Bool.eq_false_iff.mpr he
            cases hb : (site idx).nextButton with
            | none =>
                rw [scrapeLoop_nonext site idx f cards hc he' hb]
                show (1 : Nat) ≤ f + 1
                omega
            | some b =>
                by_cases hd : (b.displayed && b.enabled) = true
                · rw [scrapeLoop_adv site idx f cards b hc he' hb hd]
                  show (scrapeLoop site (idx + 1) f).cycles + 1 ≤ f + 1
                  have := ih (idx + 1)
                  omega
                · rw [scrapeLoop_notint site idx f cards b hc he' hb
                    (Bool.eq_false_iff.mpr hd)]
                  show (1 : Nat) ≤ f + 1
                  omega

theorem hasCrash_append (a b : List Event) :
    hasCrash (a ++ b) = (hasCrash a || hasCrash b) := List.any_append

theorem hasCrash_cons (e : Event) (l : List Event) :
    hasCrash (e :: l) = (isCrashEv e || hasCrash l) := List.any_cons

theorem hasCrash_pageEvs (idx : Nat) (cards : List GCard) :
    hasCrash (pageEvs idx cards) = false := by
  rw [pageEvs, hasCrash_append]
  have h1 : hasCrash [pageHeader idx,
      Event.printed ("Found " ++ toString cards.length ++ " jobs on this page.")] = false := rfl
  have h2 : hasCrash (cards.filterMap
      (fun c => if (extractGCard c).isSome then none
        else some (Event.printed skipMsg))) = false := by
    rw [hasCrash, List.any_eq_false]
    intro x hx
    rw [List.mem_filterMap] at hx
    obtain ⟨c, -, hc⟩ := hx
    by_cases hg : (extractGCard c).isSome = true
    · rw [if_pos hg] at hc; cases hc
    · rw [if_neg hg] at hc
      cases hc
      simp [isCrashEv]
  rw [h1, h2]
  rfl

theorem scrapeLoop_no_crash (site : Nat → GPage) :
    ∀ fuel idx, hasCrash (scrapeLoop site idx fuel).events = false := by
  intro fuel
  induction fuel with
  | zero => intro idx; rfl
  | succ f ih =>
      intro idx
      cases hc : (site idx).container with
      | none =>
          rw [scrapeLoop_timeout site idx f hc]
          rfl
      | some cards =>
          by_cases he : cards.isEmpty = true
          · rw [scrapeLoop_nocards site idx f cards hc he]
            rfl
          · have he' : cards.isEmpty = false := Bool.eq_false_iff.mpr he
            cases hb : (site idx).nextButton with
            | none =>
                rw [scrapeLoop_nonext site idx f cards hc he' hb]
                show hasCrash (pageEvs idx cards ++ [Event.printed noNextMsg]) = false
                rw [hasCrash_append, hasCrash_pageEvs]
                rfl
            | some b =>
                by_cases hd : (b.displayed && b.enabled) = true
                · rw [scrapeLoop_adv site idx f cards b hc he' hb hd]
                  show hasCrash (pageEvs idx cards ++ [Event.printed navMsg]
                      ++ (scrapeLoop site (idx + 1) f).events) = false
                  rw [hasCrash_append, hasCrash_append, hasCrash_pageEvs, ih (idx + 1)]
                  rfl
                · rw [scrapeLoop_notint site idx f cards b hc he' hb
                    (Bool.eq_false_iff.mpr hd)]
                  show hasCrash (pageEvs idx cards
                      ++ [Event.printed notInteractableMsg]) = false
                  rw [hasCrash_append, hasCrash_pageEvs]
                  rfl

theorem hasCrash_save_dyn (rs : List DRecord) (job dt : String) :
    hasCrash (save_to_csv_dyn rs job dt) = false := by
  by_cases h : rs.isEmpty = true <;>
    simp [save_to_csv_dyn, h, hasCrash, isCrashEv]

theorem scrapeLoop_adv_split (site : Nat → GPage) :
    ∀ k idx fuel, k ≤ fuel → (∀ i, i < k → advancesB (site (idx + i)) = true) →
      (scrapeLoop site idx fuel).records
          = pagesConcat site idx k ++ (scrapeLoop site (idx + k) (fuel - k)).records
        ∧ (scrapeLoop site idx fuel).cycles
          = k + (scrapeLoop site (idx + k) (fuel - k)).cycles := by
  intro k
  induction k with
  | zero =>
      intro idx fuel _ _
      simp [pagesConcat]
  | succ k ih =>
      intro idx fuel hk hadv
      cases fuel with
      | zero => omega
      | succ f =>
          have h0 : advancesB (site idx) = true := by
            have := hadv 0 (Nat.succ_pos k)
            simpa using this
          obtain ⟨cards, hc, he, b, hb, hd⟩ := advancesB_dest (site idx) h0
          rw [scrapeLoop_adv site idx f cards b hc he hb hd]
          have hadv' : ∀ i, i < k → advancesB (site (idx + 1 + i)) = true := by
            intro i hi
            have := hadv (i + 1) (by omega)
            rwa [show idx + (i + 1) = idx + 1 + i by omega] at this
          obtain ⟨hr, hcy⟩ := ih (idx + 1) f (by omega) hadv'
          have hidx : idx + (k + 1) = idx + 1 + k := by omega
          have hfuel : f + 1 - (k + 1) = f - k := by omega
          constructor
          · show extractGJobs cards ++ (scrapeLoop site (idx + 1) f).records = _
            rw [hr, pagesConcat, pageRecords, hc, hidx, hfuel, List.append_assoc]
          · show (scrapeLoop site (idx + 1) f).cycles + 1 = _
            rw [hcy, hidx, hfuel]
            omega

/-- Claim C2: for every requested page limit, the dynamic scrape runs
at most that many fetch/extract cycles, signals no error, and when a
page within the limit has cards but no next control the loop stops
right after that page. -/
theorem claim2 : ∀ (site : Nat → GPage) (job : String) (P : Nat),
    scrapeCycles site P ≤ P
      ∧ hasCrash (scrape_google_jobs site job P).2 = false
      ∧ ∀ k, k < P → (∀ i, i < k → advancesB (site i) = true) →
          stopNoNext (site k) = true →
          scrapeCycles site P = k + 1 := by
  intro site job P
  refine ⟨scrapeLoop_cycles_le site P 0, ?_, ?_⟩
  · show hasCrash (Event.printed ("Navigating to: " ++ googleSearchURL job)
        :: (scrapeLoop site 0 P).events) = false
    rw [hasCrash_cons, scrapeLoop_no_crash site P 0]
    rfl
  · intro k hk hadv hstop
    obtain ⟨cards, hc, he, hb⟩ := stopNoNext_dest (site k) hstop
    have hadv' : ∀ i, i < k → advancesB (site (0 + i)) = true := by
      intro i hi
      simpa using hadv i hi
    obtain ⟨-, hcy⟩ := scrapeLoop_adv_split site k 0 P (by omega) hadv'
    obtain ⟨m, hm⟩ : ∃ m, P - k = m + 1 := ⟨P - k - 1, by omega⟩
    rw [scrapeCycles, hcy, hm]
    have h0k : (0 : Nat) + k = k := by omega
    rw [h0k, scrapeLoop_nonext site k m cards hc he hb]

/-- Witness for claim C2 at a concrete site that loses its next control
on the second page, with a page limit of three. -/
theorem claim2_witness :
    ((1 : Nat) < 3 ∧ (∀ i, i < 1 → advancesB (siteStops i) = true)
        ∧ stopNoNext (siteStops 1) = true)
      ∧ scrapeCycles siteStops 3 = 1 + 1 :=
  ⟨⟨by omega, by decide, by decide⟩,
    (claim2 siteStops ("j") 3).2.2 1 (by omega) (by decide) (by decide)⟩

/-- Claim C4: a run on which the listing container is absent produces
zero records and writes no file, with the structural diagnostic
(timeout diagnostic for the dynamic variant), and that diagnostic is
distinct from the diagnostic of a present container with zero markers,
in both variants. -/
theorem claim4 :
    (∀ job loc d (page : StaticPage), page.container = none →
        (get_jobs (FetchResult.ok page) job loc).1 = Except.ok none
          ∧ Event.printed staticStructuralDiag ∈ (get_jobs (FetchResult.ok page) job loc).2
          ∧ hasWrite (staticMain (FetchResult.ok page) job loc d) = false)
      ∧ (∀ job loc (page : StaticPage), page.container = some [] →
          Event.printed staticNoCardsDiag ∈ (get_jobs (FetchResult.ok page) job loc).2)
      ∧ staticStructuralDiag ≠ staticNoCardsDiag
      ∧ (∀ (site : Nat → GPage) job dt P, 0 < P → (site 0).container = none →
          (scrape_google_jobs site job P).1 = []
            ∧ Event.printed dynTimeoutDiag ∈ dynamicRun site job P dt
            ∧ hasWrite (dynamicRun site job P dt) = false)
      ∧ (∀ (site : Nat → GPage) job P, 0 < P → (site 0).container = some [] →
          Event.printed dynNoCardsDiag ∈ (scrape_google_jobs site job P).2)
      ∧ dynTimeoutDiag ≠ dynNoCardsDiag := by
  refine ⟨?_, ?_, by decide, ?_, ?_, by decide⟩
  · intro job loc d page h
    refine ⟨by simp [get_jobs, h], by simp [get_jobs, h], ?_⟩
    simp [staticMain, get_jobs, h, hasWrite, isWriteEv, staticHdr]
  · intro job loc page h
    simp [get_jobs, h]
  · intro site job dt P hP hc
    obtain ⟨m, hm⟩ : ∃ m, P = m + 1 := ⟨P - 1, by omega⟩
    subst hm
    have hloop := scrapeLoop_timeout site 0 m hc
    refine ⟨?_, ?_, ?_⟩
    · show (scrapeLoop site 0 (m + 1)).records = []
      rw [hloop]
    · show Event.printed dynTimeoutDiag ∈
        (Event.printed ("Navigating to: " ++ googleSearchURL job)
            :: (scrapeLoop site 0 (m + 1)).events)
          ++ save_to_csv_dyn (scrapeLoop site 0 (m + 1)).records job dt
      rw [hloop]
      simp
    · show hasWrite ((Event.printed ("Navigating to: " ++ googleSearchURL job)
            :: (scrapeLoop site 0 (m + 1)).events)
          ++ save_to_csv_dyn (scrapeLoop site 0 (m + 1)).records job dt) = false
      rw [hloop]
      simp [hasWrite, save_to_csv_dyn, isWriteEv, pageHeader]
  · intro site job P hP hc
    obtain ⟨m, hm⟩ : ∃ m, P = m + 1 := ⟨P - 1, by omega⟩
    subst hm
    show Event.printed dynNoCardsDiag ∈
      Event.printed ("Navigating to: " ++ googleSearchURL job)
        :: (scrapeLoop site 0 (m + 1)).events
    rw [scrapeLoop_nocards site 0 m [] hc rfl]
    simp

/-- Witness for claim C4 at concrete pages and sites. -/
theorem claim4_witness :
    (pageNoContainer.container = none
        ∧ ((get_jobs (FetchResult.ok pageNoContainer) ("j") ("l")).1 = Except.ok none
          ∧ Event.printed staticStructuralDiag
              ∈ (get_jobs (FetchResult.ok pageNoContainer) ("j") ("l")).2
          ∧ hasWrite (staticMain (FetchResult.ok pageNoContainer) ("j") ("l") ("d")) = false))
      ∧ (pageEmptyContainer.container = some []
        ∧ Event.printed staticNoCardsDiag
            ∈ (get_jobs (FetchResult.ok pageEmptyContainer) ("j") ("l")).2)
      ∧ ((0 : Nat) < 1 ∧ (siteAllTimeout 0).container = none
        ∧ ((scrape_google_jobs siteAllTimeout ("j") 1).1 = []
          ∧ Event.printed dynTimeoutDiag ∈ dynamicRun siteAllTimeout ("j") 1 ("d")
          ∧ hasWrite (dynamicRun siteAllTimeout ("j") 1 ("d")) = false))
      ∧ ((0 : Nat) < 1 ∧ (siteEmptyCards 0).container = some []
        ∧ Event.printed dynNoCardsDiag ∈ (scrape_google_jobs siteEmptyCards ("j") 1).2) :=
  ⟨⟨rfl, claim4.1 ("j") ("l") ("d") pageNoContainer rfl⟩,
    ⟨rfl, claim4.2.1 ("j") ("l") pageEmptyContainer rfl⟩,
    ⟨by omega, rfl, claim4.2.2.2.1 siteAllTimeout ("j") ("d") 1 (by omega) rfl⟩,
    ⟨by omega, rfl, claim4.2.2.2.2.1 siteEmptyCards ("j") 1 (by omega) rfl⟩⟩

/-- Claim C7: a load/structural failure on a later page breaks only the
pagination loop: the records of all earlier pages are kept, the run
does not crash, and when those records are nonempty they reach the sink
and the file is written. -/
theorem claim7 : ∀ (site : Nat → GPage) (job dt : String) (P k : Nat),
    0 < k → k < P → (∀ i, i < k → advancesB (site i) = true) →
    (site k).container = none →
      (scrape_google_jobs site job P).1 = pagesConcat site 0 k
        ∧ hasCrash (dynamicRun site job P dt) = false
        ∧ ((pagesConcat site 0 k).isEmpty = false →
            Event.wroteFile (dynamicFilename job dt) ∈ dynamicRun site job P dt) := by
  intro site job dt P k hk hkP hadv hc
  have hadv' : ∀ i, i < k → advancesB (site (0 + i)) = true := by
    intro i hi
    simpa using hadv i hi
  obtain ⟨hr, -⟩ := scrapeLoop_adv_split site k 0 P (by omega) hadv'
  obtain ⟨m, hm⟩ : ∃ m, P - k = m + 1 := ⟨P - k - 1, by omega⟩
  have h0k : (0 : Nat) + k = k := by omega
  rw [hm, h0k, scrapeLoop_timeout site k m hc] at hr
  have hrec : (scrape_google_jobs site job P).1 = pagesConcat site 0 k := by
    show (scrapeLoop site 0 P).records = _
    rw [hr]
    simp
  refine ⟨hrec, ?_, ?_⟩
  · show hasCrash ((Event.printed ("Navigating to: " ++ googleSearchURL job)
          :: (scrapeLoop site 0 P).events)
        ++ save_to_csv_dyn (scrapeLoop site 0 P).records job dt) = false
    rw [hasCrash_append]
    have h1 : hasCrash (Event.printed ("Navigating to: " ++ googleSearchURL job)
        :: (scrapeLoop site 0 P).events) = false := by
      rw [hasCrash_cons, scrapeLoop_no_crash site P 0]
      rfl
    rw [h1, hasCrash_save_dyn]
    rfl
  · intro hne
    show Event.wroteFile (dynamicFilename job dt) ∈
      (Event.printed ("Navigating to: " ++ googleSearchURL job)
          :: (scrapeLoop site 0 P).events)
        ++ save_to_csv_dyn (scrapeLoop site 0 P).records job dt
    have hrec' : (scrapeLoop site 0 P).records = pagesConcat site 0 k := hrec
    rw [List.mem_append]
    right
    rw [hrec', save_to_csv_dyn, hne]
    simp

/-- Witness for claim C7 at a concrete site whose second page times
out after a populated first page. -/
theorem claim7_witness :
    ((0 : Nat) < 1 ∧ 1 < 2 ∧ (∀ i, i < 1 → advancesB (siteTimesOut i) = true)
        ∧ (siteTimesOut 1).container = none)
      ∧ ((scrape_google_jobs siteTimesOut ("j") 2).1 = pagesConcat siteTimesOut 0 1
        ∧ hasCrash (dynamicRun siteTimesOut ("j") 2 ("d")) = false
        ∧ ((pagesConcat siteTimesOut 0 1).isEmpty = false →
            Event.wroteFile (dynamicFilename ("j") ("d"))
              ∈ dynamicRun siteTimesOut ("j") 2 ("d"))) :=
  ⟨⟨by omega, by omega, by decide, rfl⟩,
    claim7 siteTimesOut ("j") ("d") 2 1 (by omega) (by omega) (by decide) rfl⟩

end JobScraper
